import Mathlib

/-!
Verification of the expiry authorization and quorum-race protocol of
`src/ts/session/apis/snode_api/expire.ts`, as a shallow embedding.

External collaborators of the core (the sodium signing primitive, the
transport RPC, the swarm membership provider and the network clock) are
modelled as explicit parameters at their interface boundary; the control
flow and string construction of `expire.ts` itself is translated
line by line.
-/

namespace SessionExpire

/-- An Ed25519 keypair given as hex strings (`UserUtils.HexKeyPair`). -/
structure HexKeyPair where
  privKey : String
  pubKey : String
deriving DecidableEq, Repr

/-- A storage node of the swarm (`Snode` from `data/data`). -/
structure Snode where
  pubkey_ed25519 : String
  ip : String
  port : Nat
deriving DecidableEq, Repr

/-- The sodium signing primitive at its interface boundary.
`signDetached message privKeyHex` models
`crypto_sign_detached` composed with the hex / utf8 / base64 conversions of
`generateSignature`: it receives the verification string and returns the
base64 signature, or throws (`Except.error`).
`verifyDetached signatureBase64 message pubKeyHex` models
`crypto_sign_verify_detached` composed with the conversions of
`verifySignature`: it returns whether the signature is valid, or throws. -/
structure Crypto where
  signDetached : String → String → Except String String
  verifyDetached : String → String → String → Except String Bool

/-- The three possible expiry actions (spec section 3, `ExpiryAction`). -/
inductive ExpiryAction
  | extend
  | shorten
  | unspecified
deriving DecidableEq, Repr

/-- The token each action contributes to the signing string, as computed by
`expireMessageOnSnode` line 226: `shorten ? 'shorten' : extend ? 'extend' : ''`. -/
def actionToken : ExpiryAction → String
  | .extend => "extend"
  | .shorten => "shorten"
  | .unspecified => ""

/-- The client-side signing string of `generateSignature` line 32:
`` `expire${shortenOrExtend}${timestamp}${messageHashes.join('')}` ``. -/
def signingString (shortenOrExtend : String) (timestamp : Nat)
    (messageHashes : List String) : String :=
  "expire" ++ shortenOrExtend ++ toString timestamp ++ String.join messageHashes

/-- The result of `generateSignature` when it succeeds. -/
structure SigResult where
  signature : String
  pubkey_ed25519 : String
deriving DecidableEq, Repr

/-- Function `generateSignature` (expire.ts lines 14-50): builds the signing string,
signs it, and returns `null` (here `none`) when the signing primitive throws. -/
def generateSignature (crypto : Crypto) (pubkey_ed25519 : HexKeyPair)
    (shortenOrExtend : String) (timestamp : Nat) (messageHashes : List String) :
    Option SigResult :=
  match crypto.signDetached (signingString shortenOrExtend timestamp messageHashes)
      pubkey_ed25519.privKey with
  | .ok signature => some { signature := signature, pubkey_ed25519 := pubkey_ed25519.pubKey }
  | .error _ => none

/-- The `hash ++ expiry` pairs of the unchanged-hash map, sorted as by
JavaScript `Array.prototype.sort()` (expire.ts lines 84-88). The map is
embedded as its entry list (iteration order = list order). -/
def sortedUnchangedPairs (unchangedHashes : List (String × String)) : List String :=
  List.insertionSort (fun a b => a ≤ b) (unchangedHashes.map fun p => p.1 ++ p.2)

/-- The verification string rebuilt by `verifySignature` (expire.ts lines
81-92): `pubkey ++ expiry ++ requested hashes ++ updated hashes ++ sorted
unchanged pairs`, the unchanged block present only when the map is non-empty. -/
def verificationString (pubkey : String) (expiryApplied : Nat)
    (messageHashes updatedHashes : List String)
    (unchangedHashes : List (String × String)) : String :=
  let hashes := messageHashes ++ updatedHashes ++
    (if unchangedHashes.isEmpty then [] else sortedUnchangedPairs unchangedHashes)
  pubkey ++ toString expiryApplied ++ String.join hashes

/-- Function `verifySignature` (expire.ts lines 52-109): guard clause for missing
arguments, then verification with every exception of the primitive caught
and turned into `false`. -/
def verifySignature (crypto : Crypto) (pubkey : String) (snodePubkey : String)
    (expiryApplied : Nat) (signature : String)
    (messageHashes updatedHashes : List String)
    (unchangedHashes : List (String × String)) : Bool :=
  if expiryApplied == 0 || messageHashes.isEmpty || signature.isEmpty then
    false
  else
    match crypto.verifyDetached signature
        (verificationString pubkey expiryApplied messageHashes updatedHashes unchangedHashes)
        snodePubkey with
    | .ok isValid => isValid
    | .error _ => false

/-- One per-replica entry of the parsed `swarm` map of an expire response. -/
structure SwarmEntry where
  failed : List String
  updated : List String
  unchanged : List (String × String)
  expiry : Nat
  signature : String
deriving DecidableEq, Repr

/-- The parsed `swarm` map: node key to entry, in iteration order. -/
abbrev Swarm := List (String × SwarmEntry)

/-- One recorded result of `processExpirationResults`. -/
structure ExpiryResult where
  hashes : List String
  expiry : Nat
deriving DecidableEq, Repr

/-- Assignment `results[nodeKey] = v` on a JavaScript object: overwrites in
place when the key exists, appends otherwise. -/
def setResult : List (String × ExpiryResult) → String → ExpiryResult →
    List (String × ExpiryResult)
  | [], k, v => [(k, v)]
  | (k₁, v₁) :: rest, k, v =>
    if k₁ = k then (k, v) :: rest else (k₁, v₁) :: setResult rest k v

/-- The body of the `for` loop of `processExpirationResults` (expire.ts lines
125-160). Note the fall-through: an entry with non-empty `failed` is first
recorded as `{hashes: [], expiry: 0}` (line 135) but the loop then continues
and unconditionally overwrites it (line 159). -/
def processExpirationLoop (crypto : Crypto) (pubkey : String)
    (messageHashes : List String) :
    Swarm → List (String × ExpiryResult) → List (String × ExpiryResult)
  | [], results => results
  | (nodeKey, entry) :: rest, results =>
    let results₁ :=
      if entry.failed.isEmpty then results else setResult results nodeKey ⟨[], 0⟩
    let _isValid := verifySignature crypto pubkey nodeKey entry.expiry entry.signature
      messageHashes entry.updated entry.unchanged
    let results₂ := setResult results₁ nodeKey ⟨entry.updated, entry.expiry⟩
    processExpirationLoop crypto pubkey messageHashes rest results₂

/-- Function `processExpirationResults` (expire.ts lines 111-163): throws on an empty
swarm map, otherwise runs the loop over every entry. -/
def processExpirationResults (crypto : Crypto) (pubkey : String) (swarm : Swarm)
    (messageHashes : List String) :
    Except String (List (String × ExpiryResult)) :=
  if swarm.isEmpty then .error "expireOnNodes failed!"
  else .ok (processExpirationLoop crypto pubkey messageHashes swarm [])

/-- The `expire` RPC parameters built by `expireMessageOnSnode` (lines
251-261). `extend` and `shorten` are `Option Bool` to model
`extend || undefined`. -/
structure ExpireParams where
  pubkey : String
  pubkey_ed25519 : String
  messages : List String
  expiry : Nat
  extend : Option Bool
  shorten : Option Bool
  signature : String
deriving DecidableEq, Repr

/-- A transport reply as seen by `expireOnNodes` after `snodeRpc` resolved:
its status, and the body. `body = none` models a falsy body;
`body = some none` a body whose JSON parse throws (or carries no usable
swarm); `body = some (some swarm)` a parsed swarm map. -/
structure RpcResult where
  status : Nat
  body : Option (Option Swarm)
deriving DecidableEq, Repr

/-- What one `snodeRpc` call does: throw a genuine transport error, or
resolve (possibly with a falsy result). -/
inductive RpcOutcome
  | throwErr (e : String)
  | done (result : Option RpcResult)
deriving DecidableEq, Repr

/-- Function `expireOnNodes` (expire.ts lines 172-206): transport errors propagate
(`Except.error`); a falsy result, non-200 status, falsy body, unparseable
body or empty swarm map yield `false`; a parsed non-empty swarm map is
processed and yields `true` whatever the per-entry signatures say. -/
def expireOnNodes (crypto : Crypto) (params : ExpireParams)
    (outcome : RpcOutcome) : Except String Bool :=
  match outcome with
  | .throwErr e => .error e
  | .done result =>
    match result with
    | none => .ok false
    | some r =>
      if r.status ≠ 200 then .ok false
      else
        match r.body with
        | none => .ok false
        | some none => .ok false
        | some (some swarm) =>
          match processExpirationResults crypto params.pubkey swarm params.messages with
          | .ok _ => .ok true
          | .error _ => .ok false

/-- Modelled from the spec: `DEFAULT_CONNECTIONS`, the connection fan-out
constant `C` imported from `MessageSender` (spec section 4.5 step 3, a
"bounded prefix of the replica set of fixed size C"); the module itself is
not part of the sources. -/
def DEFAULT_CONNECTIONS : Nat := 3

/-- The argument record of `expireMessageOnSnode` (expire.ts lines 208-213). -/
structure ExpireMessageOnSnodeProps where
  messageHash : String
  expireTimer : Nat
  extend : Bool
  shorten : Bool
deriving DecidableEq, Repr

/-- The expression `shorten ? 'shorten' : extend ? 'extend' : ''` of expire.ts line 226. -/
def shortenOrExtendOf (props : ExpireMessageOnSnodeProps) : String :=
  if props.shorten then "shorten" else if props.extend then "extend" else ""

/-- The ambient environment of `expireMessageOnSnode`: the crypto primitive,
the cached identity (`getOurPubKeyFromCache` / `getUserED25519KeyPair`), the
swarm returned by the membership provider (`getSwarmFor`), the
network-adjusted clock (`getNowWithNetworkOffset`) and the per-node
transport behaviour. -/
structure Env where
  crypto : Crypto
  ourPubKey : Option String
  ourEd25519Key : Option HexKeyPair
  swarm : List Snode
  now : Nat
  rpc : Snode → RpcOutcome

/-- The errors `expireMessageOnSnode` can throw. `typeError` is the
JavaScript `TypeError` raised by calling a method that does not exist. -/
inductive ExpireError
  | typeError (message : String)
  | emptySwarm (pubkey : String) (message : String)
  | transport (e : String)
deriving DecidableEq, Repr

/-- Modelled from the spec: `firstTrue` from `utils/Promise` (not among the
sources). Per spec section 4.5 steps 7-8 it resolves as soon as one attempt
reports success, and when no attempt succeeds it re-raises the last error
observed; with no success and no error it resolves falsy and the coordinator
returns normally. The concurrent race is embedded sequentially: the model
keeps which attempts succeeded and which threw, not their timing. -/
def firstTrueModel (attempts : List (Except String Bool)) : Except String Unit :=
  if attempts.any fun a => match a with | .ok true => true | _ => false then .ok ()
  else
    match attempts.filterMap
        (fun a => match a with | .error e => some e | _ => none) with
    | [] => .ok ()
    | e :: es => .error (es.getLastD e)

/-- The observable outcome of one `expireMessageOnSnode` call: its return or
thrown error, and the transport calls it dispatched (node and parameters). -/
structure ExpireOutcome where
  result : Except ExpireError Unit
  transportCalls : List (Snode × ExpireParams)
deriving Repr

/-- Function `expireMessageOnSnode` (expire.ts lines 215-289). Early
`return`s are translated to `⟨.ok (), []⟩` (the function returns `undefined`
having made no transport call), except the missing-key branch: line 232
calls `window.log.eror(...)`, which is not a method of the logger (every
other call site uses `error`/`warn`/`debug`), so that branch raises a
`TypeError` before reaching its `return` and the async function rejects. -/
def expireMessageOnSnode (env : Env) (props : ExpireMessageOnSnodeProps) :
    ExpireOutcome :=
  if props.extend && props.shorten then ⟨.ok (), []⟩
  else
    match env.ourPubKey, env.ourEd25519Key with
    | none, _ => ⟨.error (.typeError "window.log.eror is not a function"), []⟩
    | some _, none => ⟨.error (.typeError "window.log.eror is not a function"), []⟩
    | some ourPubKey, some ourEd25519Key =>
      let expiry := env.now + props.expireTimer
      match generateSignature env.crypto ourEd25519Key (shortenOrExtendOf props)
          expiry [props.messageHash] with
      | none => ⟨.ok (), []⟩
      | some signResult =>
        let params : ExpireParams :=
          { pubkey := ourPubKey
            pubkey_ed25519 := ourEd25519Key.pubKey.toUpper
            messages := [props.messageHash]
            expiry := expiry
            extend := if props.extend then some true else none
            shorten := if props.shorten then some true else none
            signature := signResult.signature }
        let usedNodes := env.swarm.take DEFAULT_CONNECTIONS
        if usedNodes.isEmpty then
          ⟨.error (.emptySwarm ourPubKey "Ran out of swarm nodes to query"), []⟩
        else
          let attempts := usedNodes.map fun node =>
            expireOnNodes env.crypto params (env.rpc node)
          let calls := usedNodes.map fun node => (node, params)
          match firstTrueModel attempts with
          | .ok _ => ⟨.ok (), calls⟩
          | .error e => ⟨.error (.transport e), calls⟩

/-! ### Helper lemmas about string joining -/

/-- Joining distributes over `cons` as plain append. -/
theorem join_cons (a : String) (l : List String) :
    String.join (a :: l) = a ++ String.join l := by
  apply String.ext
  simp

/-- The spec-side reading of the hash block: each message hash in the
caller-given order with no separators. -/
def concatHashes : List String → String
  | [] => ""
  | h :: rest => h ++ concatHashes rest

theorem join_eq_concatHashes : ∀ l : List String, String.join l = concatHashes l
  | [] => rfl
  | h :: rest => by
    rw [join_cons, join_eq_concatHashes rest, concatHashes]

/-- The signing string as clause 4.1 of the spec words it: the literal tag,
the action token (empty when unspecified), the timestamp as a decimal
integer, and the hashes in order with no separators. -/
def signingStringSpec (action : ExpiryAction) (timestamp : Nat)
    (messageHashes : List String) : String :=
  "expire" ++ actionToken action ++ Nat.repr timestamp ++ concatHashes messageHashes

/-- Claim C1: for every action, timestamp and message-hash sequence, the
signing string built by `generateSignature` is exactly the concatenation the
spec describes: the literal tag `expire`, the action token (the empty string
when the action is unspecified), the decimal timestamp, and each message
hash in the caller-given order with no separators. -/
theorem signing_string_matches_spec (action : ExpiryAction) (timestamp : Nat)
    (messageHashes : List String) :
    signingString (actionToken action) timestamp messageHashes =
      signingStringSpec action timestamp messageHashes := by
  unfold signingString signingStringSpec
  rw [join_eq_concatHashes]
  rfl

/-! ### Claim C2: order invariance of the verification string -/

/-- Sorting the paired strings is invariant under permutation of the
unchanged-hash entries: a sorted list is determined by its multiset. -/
theorem sortedUnchangedPairs_perm {u₁ u₂ : List (String × String)}
    (h : u₁.Perm u₂) : sortedUnchangedPairs u₁ = sortedUnchangedPairs u₂ := by
  exact List.eq_of_perm_of_sorted
    ((List.perm_insertionSort _ _).trans
      ((h.map _).trans (List.perm_insertionSort _ _).symm))
    (List.sorted_insertionSort _ _) (List.sorted_insertionSort _ _)

/-- The `isEmpty` guard of the unchanged block is redundant: an empty map
sorts to the empty list, so the verification string always equals the
guard-free form. -/
theorem verificationString_eq (pubkey : String) (expiryApplied : Nat)
    (messageHashes updatedHashes : List String)
    (unchangedHashes : List (String × String)) :
    verificationString pubkey expiryApplied messageHashes updatedHashes unchangedHashes =
      pubkey ++ toString expiryApplied ++
        String.join (messageHashes ++ updatedHashes ++ sortedUnchangedPairs unchangedHashes) := by
  cases unchangedHashes with
  | nil => rfl
  | cons p rest => rfl

/-- Claim C2: two unchanged-hash maps holding the same entries in different
iteration orders produce the identical verification string — the
`hash ++ expiry` pairs are concatenated in ascii-lexicographic order of the
paired string — and an empty unchanged-hash map contributes nothing (not
even a delimiter): the string is then exactly the owner key, the decimal
expiry, and the requested and updated hashes. -/
theorem verification_string_perm_invariant (pubkey : String) (expiryApplied : Nat)
    (messageHashes updatedHashes : List String)
    (u₁ u₂ : List (String × String)) (hperm : u₁.Perm u₂) :
    verificationString pubkey expiryApplied messageHashes updatedHashes u₁ =
      verificationString pubkey expiryApplied messageHashes updatedHashes u₂ ∧
    verificationString pubkey expiryApplied messageHashes updatedHashes [] =
      pubkey ++ toString expiryApplied ++ String.join (messageHashes ++ updatedHashes) := by
  constructor
  · rw [verificationString_eq, verificationString_eq, sortedUnchangedPairs_perm hperm]
  · rw [verificationString_eq]
    show _ ++ String.join (messageHashes ++ updatedHashes ++ []) = _
    rw [List.append_nil]

/-- Witness for claim C2 at a concrete input: the maps
`{b ↦ 2, a ↦ 1}` and `{a ↦ 1, b ↦ 2}` verify identically. -/
theorem verification_string_perm_invariant_witness :
    verificationString "pk" 7 ["m1"] ["u1"] [("b", "2"), ("a", "1")] =
      verificationString "pk" 7 ["m1"] ["u1"] [("a", "1"), ("b", "2")] ∧
    verificationString "pk" 7 ["m1"] ["u1"] [] =
      "pk" ++ toString 7 ++ String.join (["m1"] ++ ["u1"]) :=
  verification_string_perm_invariant "pk" 7 ["m1"] ["u1"] _ _
    (List.Perm.swap ("a", "1") ("b", "2") [])

/-! ### Claim C3: determinism and order sensitivity of the signing string -/

/-- Flattening is injective on lists whose elements all have one fixed
positive length: each block can be read back off the flattened list. -/
theorem flatten_fixed_length_inj {L : Nat} (hL : 0 < L) :
    ∀ l₁ l₂ : List (List Char), (∀ x ∈ l₁, x.length = L) → (∀ x ∈ l₂, x.length = L) →
      l₁.flatten = l₂.flatten → l₁ = l₂ := by
  intro l₁
  induction l₁ with
  | nil =>
    intro l₂ _ h₂ h
    cases l₂ with
    | nil => rfl
    | cons b t₂ =>
      exfalso
      have hb : b.length = L := h₂ b (by simp)
      have hlen := congrArg List.length h
      simp only [List.flatten_nil, List.flatten_cons, List.length_nil,
        List.length_append, hb] at hlen
      omega
  | cons a t₁ ih =>
    intro l₂ h₁ h₂ h
    cases l₂ with
    | nil =>
      exfalso
      have ha : a.length = L := h₁ a (by simp)
      have hlen := congrArg List.length h
      simp only [List.flatten_nil, List.flatten_cons, List.length_nil,
        List.length_append, ha] at hlen
      omega
    | cons b t₂ =>
      have ha : a.length = L := h₁ a (by simp)
      have hb : b.length = L := h₂ b (by simp)
      simp only [List.flatten_cons] at h
      obtain ⟨hab, ht⟩ := List.append_inj h (by rw [ha, hb])
      have hrest := ih t₂ (fun x hx => h₁ x (by simp [hx]))
        (fun x hx => h₂ x (by simp [hx])) ht
      rw [hab, hrest]

/-- Joining is injective on hash lists of one fixed positive length. -/
theorem join_fixed_length_inj {L : Nat} (hL : 0 < L) (l₁ l₂ : List String)
    (h₁ : ∀ s ∈ l₁, s.length = L) (h₂ : ∀ s ∈ l₂, s.length = L)
    (h : String.join l₁ = String.join l₂) : l₁ = l₂ := by
  have hd : (l₁.map String.data).flatten = (l₂.map String.data).flatten := by
    rw [← String.data_join, ← String.data_join, h]
  have hdata := flatten_fixed_length_inj hL (l₁.map String.data) (l₂.map String.data)
    (by
      intro x hx
      obtain ⟨s, hs, rfl⟩ := List.mem_map.mp hx
      exact h₁ s hs)
    (by
      intro x hx
      obtain ⟨s, hs, rfl⟩ := List.mem_map.mp hx
      exact h₂ s hs)
    hd
  exact List.map_injective_iff.mpr (fun a b hab => String.ext hab) hdata

/-- Claim C3, counterexample: the lists `["ab", "abab"]` and
`["abab", "ab"]` are two distinct orderings of the same message-hash
sequence, yet their signing strings coincide (both joins are `ababab`), so
order sensitivity fails as universally stated. -/
theorem signing_string_order_clash :
    (["ab", "abab"] : List String).Perm ["abab", "ab"] ∧
    (["ab", "abab"] : List String) ≠ ["abab", "ab"] ∧
    signingString "" 1 ["ab", "abab"] = signingString "" 1 ["abab", "ab"] := by
  refine ⟨List.Perm.swap "abab" "ab" [], by decide, by decide⟩

/-- Claim C3 (amended): the signing string builder is deterministic, and it
is order-sensitive for message hashes of one fixed positive length: two
distinct orderings of the same such hash sequence give different strings.
(Hashes of mixed lengths can collide, see the counterexample.) -/
theorem signing_string_deterministic_and_order_sensitive
    (shortenOrExtend : String) (timestamp : Nat) (L : Nat) (hL : 0 < L)
    (l₁ l₂ : List String) (hlen : ∀ s ∈ l₁, s.length = L)
    (hperm : l₁.Perm l₂) (hne : l₁ ≠ l₂) :
    signingString shortenOrExtend timestamp l₁ ≠ signingString shortenOrExtend timestamp l₂ ∧
    ∀ a₁ a₂ : String, ∀ t₁ t₂ : Nat, ∀ m₁ m₂ : List String,
      a₁ = a₂ → t₁ = t₂ → m₁ = m₂ →
      signingString a₁ t₁ m₁ = signingString a₂ t₂ m₂ := by
  constructor
  · intro heq
    apply hne
    have hjoin : String.join l₁ = String.join l₂ := by
      apply String.ext
      have hdata := congrArg String.data heq
      unfold signingString at hdata
      simp only [String.data_append] at hdata
      exact List.append_cancel_left hdata
    exact join_fixed_length_inj hL l₁ l₂ hlen
      (fun s hs => hlen s (hperm.mem_iff.mpr hs)) hjoin
  · intro a₁ a₂ t₁ t₂ m₁ m₂ ha ht hm
    rw [ha, ht, hm]

/-- Witness for claim C3 (amended) at a concrete input: with the
equal-length hashes `aa` and `bb`, swapping the order changes the signing
string. -/
theorem signing_string_order_sensitive_witness :
    signingString "" 1 ["aa", "bb"] ≠ signingString "" 1 ["bb", "aa"] :=
  (signing_string_deterministic_and_order_sensitive "" 1 2 (by decide)
    ["aa", "bb"] ["bb", "aa"] (by decide) (List.Perm.swap "bb" "aa" []) (by decide)).1

/-! ### Claims C4 and C5: result processing -/

/-- Assigning a fresh key appends the pair at the end. -/
theorem setResult_not_mem (results : List (String × ExpiryResult)) (k : String)
    (v : ExpiryResult) (h : k ∉ results.map Prod.fst) :
    setResult results k v = results ++ [(k, v)] := by
  induction results with
  | nil => rfl
  | cons p rest ih =>
    obtain ⟨k₁, v₁⟩ := p
    simp only [List.map_cons, List.mem_cons, not_or] at h
    obtain ⟨hk, hrest⟩ := h
    have hk' : ¬(k₁ = k) := fun hc => hk hc.symm
    simp only [setResult, if_neg hk', List.cons_append]
    rw [ih hrest]

/-- Reassigning the freshly appended key overwrites it in place. -/
theorem setResult_append_same (results : List (String × ExpiryResult)) (k : String)
    (v₁ v₂ : ExpiryResult) (h : k ∉ results.map Prod.fst) :
    setResult (results ++ [(k, v₁)]) k v₂ = results ++ [(k, v₂)] := by
  induction results with
  | nil => simp [setResult]
  | cons p rest ih =>
    obtain ⟨k₁, u₁⟩ := p
    simp only [List.map_cons, List.mem_cons, not_or] at h
    obtain ⟨hk, hrest⟩ := h
    have hk' : ¬(k₁ = k) := fun hc => hk hc.symm
    show setResult ((k₁, u₁) :: (rest ++ [(k, v₁)])) k v₂ =
      (k₁, u₁) :: (rest ++ [(k, v₂)])
    simp only [setResult, if_neg hk']
    rw [ih hrest]

/-- Characterization of the processing loop: when the node keys are distinct
and disjoint from the accumulator, every swarm entry ends up recorded with
its own `updated` hashes and `expiry` — also the entries whose `failed`
field is non-empty, whose `{hashes := [], expiry := 0}` record is
overwritten by the fall-through of the loop body. -/
theorem processExpirationLoop_eq (crypto : Crypto) (pubkey : String)
    (messageHashes : List String) :
    ∀ (swarm : Swarm) (acc : List (String × ExpiryResult)),
      (swarm.map Prod.fst).Nodup →
      (∀ k ∈ swarm.map Prod.fst, k ∉ acc.map Prod.fst) →
      processExpirationLoop crypto pubkey messageHashes swarm acc =
        acc ++ swarm.map (fun p => (p.1, ⟨p.2.updated, p.2.expiry⟩)) := by
  intro swarm
  induction swarm with
  | nil =>
    intro acc _ _
    simp [processExpirationLoop]
  | cons p rest ih =>
    intro acc hnodup hdisj
    obtain ⟨nodeKey, entry⟩ := p
    simp only [List.map_cons, List.nodup_cons] at hnodup
    obtain ⟨hkey, hnodup'⟩ := hnodup
    have hacc : nodeKey ∉ acc.map Prod.fst :=
      hdisj nodeKey (by simp)
    have hstep : setResult
        (if entry.failed.isEmpty then acc else setResult acc nodeKey ⟨[], 0⟩)
        nodeKey ⟨entry.updated, entry.expiry⟩ = acc ++ [(nodeKey, ⟨entry.updated, entry.expiry⟩)] := by
      cases hfail : entry.failed.isEmpty with
      | true =>
        rw [if_pos rfl]
        exact setResult_not_mem acc nodeKey _ hacc
      | false =>
        rw [if_neg (by simp [hfail])]
        rw [setResult_not_mem acc nodeKey _ hacc]
        exact setResult_append_same acc nodeKey _ _ hacc
    have hdisj' : ∀ k ∈ rest.map Prod.fst,
        k ∉ (acc ++ [(nodeKey, (⟨entry.updated, entry.expiry⟩ : ExpiryResult))]).map Prod.fst := by
      intro k hk
      simp only [List.map_append, List.mem_append, List.map_cons, List.map_nil, not_or]
      constructor
      · exact hdisj k (by simp [hk])
      · intro hc
        simp only [List.mem_cons, List.not_mem_nil, or_false] at hc
        exact hkey (hc ▸ hk)
    rw [show processExpirationLoop crypto pubkey messageHashes ((nodeKey, entry) :: rest) acc =
        processExpirationLoop crypto pubkey messageHashes rest
          (setResult (if entry.failed.isEmpty then acc else setResult acc nodeKey ⟨[], 0⟩)
            nodeKey ⟨entry.updated, entry.expiry⟩) from rfl]
    rw [hstep]
    refine (ih _ hnodup' hdisj').trans ?_
    simp

/-- Claim C4: with any verification oracle at all — in particular one for
which every replica signature is invalid — a parsed, non-empty swarm map
yields overall per-node success (`expireOnNodes` returns `true` when
transport and parsing succeeded), and processing covers every replica entry
without throwing. -/
theorem invalid_signature_not_fatal (crypto : Crypto) (params : ExpireParams)
    (swarm : Swarm) (hne : swarm ≠ [])
    (hnodup : (swarm.map Prod.fst).Nodup) :
    expireOnNodes crypto params (.done (some ⟨200, some (some swarm)⟩)) = .ok true ∧
    processExpirationResults crypto params.pubkey swarm params.messages =
      .ok (swarm.map fun p => (p.1, ⟨p.2.updated, p.2.expiry⟩)) := by
  have hproc : processExpirationResults crypto params.pubkey swarm params.messages =
      .ok (swarm.map fun p => (p.1, ⟨p.2.updated, p.2.expiry⟩)) := by
    unfold processExpirationResults
    rw [if_neg (by simp [hne])]
    rw [processExpirationLoop_eq crypto params.pubkey params.messages swarm []
      hnodup (by simp)]
    simp
  refine ⟨?_, hproc⟩
  show (match processExpirationResults crypto params.pubkey swarm params.messages with
    | Except.ok _ => Except.ok true
    | Except.error _ => Except.ok false) = Except.ok true
  rw [hproc]

/-- A verification oracle that deems every signature invalid (and a signing
oracle that succeeds), for concrete evaluations. -/
def cryptoAllInvalid : Crypto where
  signDetached := fun _ _ => .ok "c2ln"
  verifyDetached := fun _ _ _ => .ok false

/-- Concrete request parameters for the witnesses. -/
def params₀ : ExpireParams where
  pubkey := "05aa"
  pubkey_ed25519 := "ED25519KEY"
  messages := ["hash1"]
  expiry := 1000
  extend := none
  shorten := none
  signature := "sig0"

/-- A concrete two-replica swarm map with one failed entry. -/
def swarm₀ : Swarm :=
  [("node1", ⟨[], ["hash1"], [], 1000, "sigA"⟩),
   ("node2", ⟨["someError"], ["hash2"], [], 5, "sigB"⟩)]

/-- Witness for claim C4 at a concrete input: with every signature invalid,
the per-node request still reports success and both replica entries are
processed. -/
theorem invalid_signature_not_fatal_witness :
    expireOnNodes cryptoAllInvalid params₀ (.done (some ⟨200, some (some swarm₀)⟩)) = .ok true ∧
    processExpirationResults cryptoAllInvalid params₀.pubkey swarm₀ params₀.messages =
      .ok (swarm₀.map fun p => (p.1, ⟨p.2.updated, p.2.expiry⟩)) :=
  invalid_signature_not_fatal cryptoAllInvalid params₀ swarm₀ (by decide) (by decide)

/-- Claim C5, evaluation at the failing input: a replica entry whose
`failed` field is non-empty is finally recorded with that entry's own
`updated` hashes and `expiry` — the `{hashes := [], expiry := 0}` record
written first is a dead store, overwritten by the unconditional assignment
at the end of the loop body — contradicting the claimed
empty-set / zero-expiry record. -/
theorem failed_entry_record_overwritten :
    processExpirationResults cryptoAllInvalid "05aa"
        [("node2", ⟨["someError"], ["hash2"], [], 5, "sigB"⟩)] ["hash1"] =
      .ok [("node2", ⟨["hash2"], 5⟩)] ∧
    (⟨["hash2"], 5⟩ : ExpiryResult) ≠ ⟨[], 0⟩ := by
  exact ⟨rfl, by decide⟩

/-! ### Claims C6, C7, C9, C10: the coordinator -/

/-- A concrete storage node for the witnesses. -/
def node₁ : Snode := ⟨"edkey1", "localhost", 1234⟩

/-- A crypto primitive whose signing throws, for the sign-failure runs. -/
def cryptoSignFail : Crypto where
  signDetached := fun _ _ => .error "bad key material"
  verifyDetached := fun _ _ _ => .ok false

/-- Concrete environment: keys cached, one-node swarm, transport resolving
falsy. -/
def env₆ : Env where
  crypto := cryptoAllInvalid
  ourPubKey := some "05aa"
  ourEd25519Key := some ⟨"abcd", "edpub"⟩
  swarm := [node₁]
  now := 100
  rpc := fun _ => .done none

/-- Concrete environment: keys cached, signing succeeds, but the membership
provider returns an empty swarm. -/
def envEmptySwarm : Env where
  crypto := cryptoAllInvalid
  ourPubKey := some "05aa"
  ourEd25519Key := some ⟨"abcd", "edpub"⟩
  swarm := []
  now := 100
  rpc := fun _ => .done none

/-- Concrete environment: keys cached, empty swarm, and signing fails. -/
def envSignFailEmpty : Env where
  crypto := cryptoSignFail
  ourPubKey := some "05aa"
  ourEd25519Key := some ⟨"abcd", "edpub"⟩
  swarm := []
  now := 100
  rpc := fun _ => .done none

/-- Concrete environment: no cached owner public key. -/
def envNoKey : Env where
  crypto := cryptoAllInvalid
  ourPubKey := none
  ourEd25519Key := some ⟨"abcd", "edpub"⟩
  swarm := [node₁]
  now := 100
  rpc := fun _ => .done none

/-- Claim C6, counterexample: with both `extend` and `shorten` requested the
coordinator does not fail with any error — it returns normally (`undefined`),
so no `ValidationError` reaches the caller. -/
theorem extend_and_shorten_no_validation_error :
    (expireMessageOnSnode env₆ ⟨"hash1", 10, true, true⟩).result = .ok () := rfl

/-- Claim C6 (amended): with both `extend` and `shorten` requested the
coordinator logs and returns normally — `undefined`, no thrown error — before
any transport call is made (the transport call list is empty). -/
theorem extend_and_shorten_early_return (env : Env)
    (props : ExpireMessageOnSnodeProps)
    (hx : props.extend = true) (hs : props.shorten = true) :
    (expireMessageOnSnode env props).result = .ok () ∧
    (expireMessageOnSnode env props).transportCalls = [] := by
  unfold expireMessageOnSnode
  rw [hx, hs]
  exact ⟨rfl, rfl⟩

/-- Witness for claim C6 (amended) at a concrete input. -/
theorem extend_and_shorten_early_return_witness :
    (expireMessageOnSnode env₆ ⟨"hash2", 30, true, true⟩).result = .ok () ∧
    (expireMessageOnSnode env₆ ⟨"hash2", 30, true, true⟩).transportCalls = [] :=
  extend_and_shorten_early_return env₆ ⟨"hash2", 30, true, true⟩ rfl rfl

/-- Claim C7, counterexample: the membership provider returned an empty
replica sequence, yet — because signature generation fails afterwards — the
coordinator silently returns `undefined` instead of failing with the
no-replicas condition. -/
theorem empty_swarm_sign_failure_silent :
    envSignFailEmpty.swarm = [] ∧
    (expireMessageOnSnode envSignFailEmpty ⟨"hash1", 10, false, false⟩).result =
      .ok () :=
  ⟨rfl, rfl⟩

/-- Claim C7 (amended): when the key material is available and signing
succeeds, an empty replica sequence from the membership provider makes the
coordinator throw the distinct `EmptySwarmError` and make zero transport
calls; what it never does is proceed to contact any node. -/
theorem empty_swarm_throws (env : Env) (props : ExpireMessageOnSnodeProps)
    (pk : String) (kp : HexKeyPair) (sr : SigResult)
    (hflags : (props.extend && props.shorten) = false)
    (hpk : env.ourPubKey = some pk) (hkp : env.ourEd25519Key = some kp)
    (hsign : generateSignature env.crypto kp (shortenOrExtendOf props)
      (env.now + props.expireTimer) [props.messageHash] = some sr)
    (hswarm : env.swarm = []) :
    (expireMessageOnSnode env props).result =
      .error (.emptySwarm pk "Ran out of swarm nodes to query") ∧
    (expireMessageOnSnode env props).transportCalls = [] := by
  unfold expireMessageOnSnode
  rw [hflags, hpk, hkp]
  simp only [Bool.false_eq_true, if_false]
  rw [hsign, hswarm]
  exact ⟨rfl, rfl⟩

/-- Witness for claim C7 (amended) at a concrete input. -/
theorem empty_swarm_throws_witness :
    (expireMessageOnSnode envEmptySwarm ⟨"hash1", 10, false, false⟩).result =
      .error (.emptySwarm "05aa" "Ran out of swarm nodes to query") ∧
    (expireMessageOnSnode envEmptySwarm ⟨"hash1", 10, false, false⟩).transportCalls = [] :=
  empty_swarm_throws envEmptySwarm ⟨"hash1", 10, false, false⟩
    "05aa" ⟨"abcd", "edpub"⟩ ⟨"c2ln", "edpub"⟩ rfl rfl rfl rfl rfl

/-- Claim C9: on a successful dispatch, the expiry timestamp is network time
plus the requested delta, computed once before the fan-out, the request is
signed once, and every contacted replica receives the very same parameter
record — in particular the identical timestamp and identical signature. -/
theorem same_timestamp_and_signature_for_all (env : Env)
    (props : ExpireMessageOnSnodeProps)
    (pk : String) (kp : HexKeyPair) (sr : SigResult)
    (hflags : (props.extend && props.shorten) = false)
    (hpk : env.ourPubKey = some pk) (hkp : env.ourEd25519Key = some kp)
    (hsign : generateSignature env.crypto kp (shortenOrExtendOf props)
      (env.now + props.expireTimer) [props.messageHash] = some sr)
    (hswarm : env.swarm ≠ []) :
    ∃ params : ExpireParams,
      (expireMessageOnSnode env props).transportCalls =
        (env.swarm.take DEFAULT_CONNECTIONS).map (fun node => (node, params)) ∧
      params.expiry = env.now + props.expireTimer ∧
      params.signature = sr.signature := by
  refine ⟨{ pubkey := pk
            pubkey_ed25519 := kp.pubKey.toUpper
            messages := [props.messageHash]
            expiry := env.now + props.expireTimer
            extend := if props.extend then some true else none
            shorten := if props.shorten then some true else none
            signature := sr.signature }, ?_, rfl, rfl⟩
  unfold expireMessageOnSnode
  rw [hflags, hpk, hkp]
  simp only [Bool.false_eq_true, if_false]
  rw [hsign]
  have hne : (env.swarm.take DEFAULT_CONNECTIONS).isEmpty = false := by
    obtain ⟨a, rest, h₁⟩ := List.exists_cons_of_ne_nil hswarm
    rw [h₁]
    rfl
  simp only [hne, Bool.false_eq_true, if_false]
  split <;> rfl

/-- Witness for claim C9 at a concrete input. -/
theorem same_timestamp_and_signature_for_all_witness :
    ∃ params : ExpireParams,
      (expireMessageOnSnode env₆ ⟨"hash1", 10, false, false⟩).transportCalls =
        (env₆.swarm.take DEFAULT_CONNECTIONS).map (fun node => (node, params)) ∧
      params.expiry = env₆.now + 10 ∧
      params.signature = (⟨"c2ln", "edpub"⟩ : SigResult).signature :=
  same_timestamp_and_signature_for_all env₆ ⟨"hash1", 10, false, false⟩
    "05aa" ⟨"abcd", "edpub"⟩ ⟨"c2ln", "edpub"⟩ rfl rfl rfl rfl (by decide)

/-- Claim C10, counterexample: with the cached owner public key missing the
entry point does not return normally — line 232 calls `window.log.eror`,
which is not a method of the logger, so the missing-key branch raises a
`TypeError` and the invocation rejects instead of returning `undefined`. -/
theorem missing_key_throws_type_error :
    (expireMessageOnSnode envNoKey ⟨"hash9", 20, false, false⟩).result =
      .error (.typeError "window.log.eror is not a function") := rfl

/-- Claim C10 (amended): when the cached owner public key or the Ed25519
keypair is unavailable, `expireMessageOnSnode` does not return normally —
the logging call of line 232 is the nonexistent `window.log.eror`, so the
invocation rejects with a `TypeError`, still with zero transport calls; the
caller does get a signal, though an accidental one. Only when the key
material is present but signature generation fails does the entry point
return normally (`undefined`) without throwing and with zero transport
calls, leaving the caller with no signal. -/
theorem missing_keys_throw_sign_failure_silent (env : Env)
    (props : ExpireMessageOnSnodeProps)
    (hflags : (props.extend && props.shorten) = false) :
    ((env.ourPubKey = none ∨ env.ourEd25519Key = none) →
      (expireMessageOnSnode env props).result =
        .error (.typeError "window.log.eror is not a function") ∧
      (expireMessageOnSnode env props).transportCalls = []) ∧
    (∀ pk kp, env.ourPubKey = some pk → env.ourEd25519Key = some kp →
      generateSignature env.crypto kp (shortenOrExtendOf props)
        (env.now + props.expireTimer) [props.messageHash] = none →
      (expireMessageOnSnode env props).result = .ok () ∧
      (expireMessageOnSnode env props).transportCalls = []) := by
  unfold expireMessageOnSnode
  rw [hflags]
  constructor
  · rintro (hpk | hkp)
    · rw [hpk]
      exact ⟨rfl, rfl⟩
    · rw [hkp]
      cases env.ourPubKey with
      | none => exact ⟨rfl, rfl⟩
      | some pk => exact ⟨rfl, rfl⟩
  · intro pk kp hpk hkp hsig
    rw [hpk, hkp]
    simp only [hsig]
    exact ⟨rfl, rfl⟩

/-- Witness for claim C10 (amended) at concrete inputs: the missing-key run
rejects with the `TypeError` and makes no transport call, and the
sign-failure run (keys present, signing primitive throwing) returns
normally with no transport call. -/
theorem missing_keys_throw_sign_failure_silent_witness :
    ((expireMessageOnSnode envNoKey ⟨"hash1", 10, false, false⟩).result =
        .error (.typeError "window.log.eror is not a function") ∧
      (expireMessageOnSnode envNoKey ⟨"hash1", 10, false, false⟩).transportCalls = []) ∧
    ((expireMessageOnSnode envSignFailEmpty ⟨"hash1", 10, false, false⟩).result =
        .ok () ∧
      (expireMessageOnSnode envSignFailEmpty ⟨"hash1", 10, false, false⟩).transportCalls = []) :=
  ⟨(missing_keys_throw_sign_failure_silent envNoKey ⟨"hash1", 10, false, false⟩ rfl).1
      (Or.inl rfl),
   (missing_keys_throw_sign_failure_silent envSignFailEmpty ⟨"hash1", 10, false, false⟩ rfl).2
      "05aa" ⟨"abcd", "edpub"⟩ rfl rfl rfl⟩

/-! ### Claim C8: verification failures versus malformed input -/

/-- A crypto primitive whose verification always throws, standing for
malformed signature or key bytes. -/
def cryptoMalformed : Crypto where
  signDetached := fun _ _ => .error "bad key material"
  verifyDetached := fun _ _ _ => .error "malformed input"

/-- Claim C8, counterexample: a malformed-input run (the primitive throws,
the `catch` turns it into `false`) and a checked-and-failed run (the
primitive returns `false`) produce the same observable result, so the caller
cannot tell "could not even check" from "checked and it failed" — there is
no distinct malformed-input error. -/
theorem malformed_input_indistinguishable :
    verifySignature cryptoMalformed "05aa" "edkey1" 5 "sigA" ["hash1"] [] [] =
      verifySignature cryptoAllInvalid "05aa" "edkey1" 5 "sigA" ["hash1"] [] [] ∧
    verifySignature cryptoMalformed "05aa" "edkey1" 5 "sigA" ["hash1"] [] [] = false :=
  ⟨rfl, rfl⟩

/-- Claim C8 (amended): `verifySignature` never raises — a well-formed but
invalid signature yields `false`, and malformed signature or key bytes (the
primitive throwing) also yield `false`, indistinguishable from a
verification failure. -/
theorem verify_never_raises (crypto : Crypto) (pubkey snodePubkey : String)
    (expiryApplied : Nat) (signature : String)
    (messageHashes updatedHashes : List String)
    (unchangedHashes : List (String × String))
    (h : (∃ e, crypto.verifyDetached signature
            (verificationString pubkey expiryApplied messageHashes updatedHashes unchangedHashes)
            snodePubkey = Except.error e) ∨
         crypto.verifyDetached signature
            (verificationString pubkey expiryApplied messageHashes updatedHashes unchangedHashes)
            snodePubkey = Except.ok false) :
    verifySignature crypto pubkey snodePubkey expiryApplied signature
      messageHashes updatedHashes unchangedHashes = false := by
  unfold verifySignature
  split
  · rfl
  · rcases h with ⟨e, he⟩ | he <;> rw [he]

/-- Witness for claim C8 (amended) at a concrete input: the
malformed-input primitive run returns `false`. -/
theorem verify_never_raises_witness :
    verifySignature cryptoMalformed "05bb" "edkey2" 7 "sigB" ["hash9"] [] [] = false :=
  verify_never_raises cryptoMalformed "05bb" "edkey2" 7 "sigB" ["hash9"] [] []
    (Or.inl ⟨"malformed input", rfl⟩)

end SessionExpire
